import Mathlib

/-!
Shallow embedding of `src/main.py` (sucesos_app.py), a Streamlit app that
records catastrophic events for Torreón in a SQLite table, computes a
Poisson-style per-category probability table, filters/reports records, and
renders a folium map.

Modelling conventions:
* SQLite REAL columns (lat, lon) are modelled as `Option ℚ` (NULL = `none`);
  TEXT columns that may be NULL as `Option String`; the required date as a
  `Fecha` value (the form's `st.date_input` always produces a valid calendar
  date, `str(date)` stores ISO text, and `pd.to_datetime` parses it back, so
  the store round-trips dates exactly).
* The AUTOINCREMENT primary key is modelled by a `nextId` counter on the
  store; SQLite guarantees `nextId` exceeds every id already in the table,
  which appears as the freshness hypothesis of the insert/load theorem.
* `math.exp` on Python floats is modelled at real precision with `Real.exp`;
  the `f"{p*100:.1f}%"` display is modelled by rounding `1000 * p` to the
  nearest integer (no representable tie arises for the inputs considered).
-/

set_option maxRecDepth 8000

namespace Sucesos

/-- A calendar date, as produced by `st.date_input` (always a valid date). -/
structure Fecha where
  year : Int
  month : Nat
  day : Nat
deriving DecidableEq

/-- One row of the `sucesos` table as returned by `cargar_datos`:
`id, fecha, tipo, subtipo, lugar, lat, lon, gravedad, impacto, fuente, notas`.
Optional columns are NULLable in the schema, hence `Option`. -/
structure StoredRow where
  id : Nat
  fecha : Fecha
  tipo : String
  subtipo : String
  lugar : Option String
  lat : Option ℚ
  lon : Option ℚ
  gravedad : Int
  impacto : Option String
  fuente : Option String
  notas : Option String
deriving DecidableEq

/-- The persistent store: the `sucesos` table plus SQLite's AUTOINCREMENT
counter for the next primary key. -/
structure Store where
  rows : List StoredRow
  nextId : Nat
deriving DecidableEq

/-- `agregar_suceso` (main.py lines 43–51): INSERT of the ten field values;
SQLite assigns the fresh AUTOINCREMENT id. No validation is performed. -/
def agregar_suceso (s : Store) (fecha : Fecha) (tipo subtipo : String)
    (lugar : Option String) (lat lon : Option ℚ) (gravedad : Int)
    (impacto fuente notas : Option String) : Store :=
  { rows := s.rows ++
      [⟨s.nextId, fecha, tipo, subtipo, lugar, lat, lon, gravedad, impacto, fuente, notas⟩],
    nextId := s.nextId + 1 }

/-- `cargar_datos` (main.py lines 53–59): SELECT * FROM sucesos, rows in
insertion order; the date column is parsed back to a date value. -/
def cargar_datos (s : Store) : List StoredRow := s.rows

/-- Claim C1: inserting a record and then loading yields the old sequence plus
exactly one new row whose ten field values are the inserted ones verbatim and
whose id is the freshly assigned counter value, distinct from every id already
present (freshness of the AUTOINCREMENT counter is the SQLite invariant). -/
theorem C1_insert_load (s : Store) (fecha : Fecha) (tipo subtipo : String)
    (lugar : Option String) (lat lon : Option ℚ) (gravedad : Int)
    (impacto fuente notas : Option String)
    (hfresh : ∀ r ∈ s.rows, r.id < s.nextId) :
    cargar_datos (agregar_suceso s fecha tipo subtipo lugar lat lon gravedad impacto fuente notas)
      = cargar_datos s ++
        [⟨s.nextId, fecha, tipo, subtipo, lugar, lat, lon, gravedad, impacto, fuente, notas⟩] ∧
    ∀ r ∈ cargar_datos s, r.id ≠ s.nextId := by
  refine ⟨rfl, fun r hr => ?_⟩
  exact Nat.ne_of_lt (hfresh r hr)

/-- Witness for C1 at a concrete store holding one row with id 1. -/
theorem C1_insert_load_witness :
    cargar_datos (agregar_suceso
        ⟨[⟨1, ⟨2023, 1, 1⟩, "Sismo", "", none, none, none, 2, none, none, none⟩], 2⟩
        ⟨2026, 3, 4⟩ "Apagón" "centro" (some "Torreón") (some (255 / 10)) (some (-103))
        4 (some "daños") none none)
      = [⟨1, ⟨2023, 1, 1⟩, "Sismo", "", none, none, none, 2, none, none, none⟩,
         ⟨2, ⟨2026, 3, 4⟩, "Apagón", "centro", some "Torreón", some (255 / 10), some (-103),
          4, some "daños", none, none⟩] ∧
    ∀ r ∈ cargar_datos (⟨[⟨1, ⟨2023, 1, 1⟩, "Sismo", "", none, none, none, 2, none, none, none⟩], 2⟩ : Store),
      r.id ≠ 2 := by
  exact C1_insert_load
    ⟨[⟨1, ⟨2023, 1, 1⟩, "Sismo", "", none, none, none, 2, none, none, none⟩], 2⟩
    ⟨2026, 3, 4⟩ "Apagón" "centro" (some "Torreón") (some (255 / 10)) (some (-103))
    4 (some "daños") none none (by decide)

/-- `probabilidad_poisson` (main.py lines 64–65): `1 - exp(-lmbda)`, with the
float `exp` modelled at real precision. -/
noncomputable def probabilidad_poisson (lmbda : ℝ) : ℝ := 1 - Real.exp (-lmbda)

/-- Insertion step of a by-count descending sort. -/
def insert_desc (p : String × Nat) : List (String × Nat) → List (String × Nat)
  | [] => [p]
  | q :: qs => if q.2 < p.2 then p :: q :: qs else q :: insert_desc p qs

/-- Insertion sort by descending count. -/
def sort_desc : List (String × Nat) → List (String × Nat)
  | [] => []
  | p :: ps => insert_desc p (sort_desc ps)

/-- `recent["tipo"].value_counts()` (main.py line 73): occurrence count of each
distinct category, ordered by descending count.  No claim depends on the
relative order of rows with equal counts. -/
def value_counts (l : List String) : List (String × Nat) :=
  sort_desc (l.dedup.map fun t => (t, l.count t))

theorem mem_insert_desc (a p : String × Nat) (l : List (String × Nat)) :
    a ∈ insert_desc p l ↔ a = p ∨ a ∈ l := by
  induction l with
  | nil => simp [insert_desc]
  | cons q qs ih =>
    by_cases h : q.2 < p.2
    · simp [insert_desc, h]
    · simp [insert_desc, h, ih]
      tauto

theorem mem_sort_desc (a : String × Nat) (l : List (String × Nat)) :
    a ∈ sort_desc l ↔ a ∈ l := by
  induction l with
  | nil => simp [sort_desc]
  | cons p ps ih => simp [sort_desc, mem_insert_desc, ih]

/-- Python `round(x, 2)` applied to the annual average `n/5` (main.py
line 80), over ℚ.  The averages `n/5` have at most one decimal digit, so no
rounding tie can occur and the tie-breaking mode is irrelevant. -/
def round2 (q : ℚ) : ℚ := (round (q * 100) : ℚ) / 100

/-- One row of the probability table built at main.py lines 78–81.  The
displayed probability column is determined by the count: it renders
`prob_display eventos`. -/
structure ResumenRow where
  tipo : String
  eventos : Nat
  promedio : ℚ
deriving DecidableEq

/-- A pandas DataFrame abstracted to its column labels and its rows. -/
structure Tabla where
  columns : List String
  rows : List ResumenRow
deriving DecidableEq

/-- The four column labels of the probability table (main.py line 69). -/
def resumen_columns : List String :=
  ["Tipo", "Eventos últimos 5 años", "Promedio anual", "Probabilidad (al menos 1/año)"]

/-- The 5-year window filter `df[df["year"] >= current_year - 4]`
(main.py lines 70–72). -/
def recentes (currentYear : Int) (rows : List StoredRow) : List StoredRow :=
  rows.filter fun r => decide (currentYear - 4 ≤ r.fecha.year)

/-- The data rows built by `resumen_probabilidades` for a nonempty input:
counts of each category in the 5-year window, with the rounded annual
average (main.py lines 73–81). -/
def resumen_rows (currentYear : Int) (rows : List StoredRow) : List ResumenRow :=
  (value_counts ((recentes currentYear rows).map (·.tipo))).map
    fun p => ⟨p.1, p.2, round2 ((p.2 : ℚ) / 5)⟩

/-- `resumen_probabilidades` (main.py lines 67–82).  An empty input returns
the empty table with the four fixed columns; a nonempty input returns one row
per category present in the window.  When the input is nonempty but the
window holds no record, `pd.DataFrame([])` has no columns at all — modelled
faithfully by the inner `if`. -/
def resumen_probabilidades (currentYear : Int) (rows : List StoredRow) : Tabla :=
  if rows.isEmpty then ⟨resumen_columns, []⟩
  else
    ⟨if (resumen_rows currentYear rows).isEmpty then [] else resumen_columns,
     resumen_rows currentYear rows⟩

/-- The displayed probability for a category with `n` events, in tenths of a
percent: the value of `f-string p*100:.1f` at real precision times ten
(632 renders as `63.2`).  No rounding tie arises at the inputs considered. -/
noncomputable def prob_display_mille (n : ℕ) : ℤ :=
  round (probabilidad_poisson ((n : ℝ) / 5) * 100 * 10)

/-- The percent string shown in the probability column (main.py line 81). -/
noncomputable def prob_display (n : ℕ) : String :=
  toString (prob_display_mille n / 10) ++ "." ++ toString (prob_display_mille n % 10) ++ "%"

theorem exp_neg_one_gt : (0.3678 : ℝ) < Real.exp (-1) := by
  rw [Real.exp_neg]
  have h := Real.exp_one_lt_d9
  have hpos := Real.exp_pos 1
  have hinv : Real.exp 1 * (Real.exp 1)⁻¹ = 1 := mul_inv_cancel₀ (ne_of_gt hpos)
  nlinarith [inv_pos.mpr hpos]

theorem exp_neg_one_lt : Real.exp (-1) < (0.3679 : ℝ) := by
  rw [Real.exp_neg]
  have h := Real.exp_one_gt_d9
  have hpos := Real.exp_pos 1
  have hinv : Real.exp 1 * (Real.exp 1)⁻¹ = 1 := mul_inv_cancel₀ (ne_of_gt hpos)
  nlinarith [inv_pos.mpr hpos]

theorem prob_display_mille_five : prob_display_mille 5 = 632 := by
  unfold prob_display_mille probabilidad_poisson
  have h1 := exp_neg_one_gt
  have h2 := exp_neg_one_lt
  norm_num
  rw [round_eq, Int.floor_eq_iff]
  constructor
  · push_cast
    nlinarith
  · push_cast
    nlinarith

theorem prob_display_five : prob_display 5 = "63.2%" := by
  unfold prob_display
  rw [prob_display_mille_five]
  rfl

theorem exp_neg_ten_lt : Real.exp (-10) < 0.0005 := by
  have h1 : (2.5 : ℝ) < Real.exp 1 := lt_trans (by norm_num) Real.exp_one_gt_d9
  have h2 : ((2.5 : ℝ)) ^ (10 : ℕ) ≤ Real.exp 1 ^ (10 : ℕ) :=
    pow_le_pow_left₀ (by norm_num) h1.le 10
  have h3 : Real.exp 1 ^ (10 : ℕ) = Real.exp 10 := by
    rw [← Real.exp_nat_mul]
    norm_num
  have h4 : (2000 : ℝ) < Real.exp 10 := by
    rw [← h3]
    calc (2000 : ℝ) < (2.5 : ℝ) ^ (10 : ℕ) := by norm_num
      _ ≤ _ := h2
  have hpos : (0 : ℝ) < Real.exp 10 := Real.exp_pos 10
  have hinv : Real.exp 10 * (Real.exp 10)⁻¹ = 1 := mul_inv_cancel₀ (ne_of_gt hpos)
  rw [show (-10 : ℝ) = -(10 : ℝ) by norm_num, Real.exp_neg]
  nlinarith [inv_pos.mpr hpos]

theorem prob_display_mille_fifty : prob_display_mille 50 = 1000 := by
  unfold prob_display_mille probabilidad_poisson
  have h1 := exp_neg_ten_lt
  have h2 := Real.exp_pos (-10)
  norm_num
  rw [round_eq, Int.floor_eq_iff]
  constructor
  · push_cast
    nlinarith
  · push_cast
    nlinarith

theorem prob_display_fifty : prob_display 50 = "100.0%" := by
  unfold prob_display
  rw [prob_display_mille_fifty]
  rfl

/-- The data rows of the table equal `resumen_rows` in every case. -/
theorem resumen_probabilidades_rows (y : Int) (rows : List StoredRow) :
    (resumen_probabilidades y rows).rows = resumen_rows y rows := by
  cases rows with
  | nil => rfl
  | cons a as => rfl

/-- Claim C9: on an empty input the estimator returns an empty but correctly
shaped table — the four expected columns (type, 5-year count, annual rate,
probability) and zero rows — and, being a total function, raises nothing. -/
theorem C9_empty_input (y : Int) :
    resumen_probabilidades y [] = ⟨resumen_columns, []⟩ ∧
    resumen_columns = ["Tipo", "Eventos últimos 5 años", "Promedio anual",
      "Probabilidad (al menos 1/año)"] ∧
    resumen_columns.length = 4 :=
  ⟨rfl, rfl, rfl⟩

/-- Claim C2: five records of category "Flood" dated inside the 5-year window
and no other records yield exactly one row with category "Flood", count 5 and
rounded annual rate 1; the probability column for a count of 5 renders as
"63.2%". -/
theorem C2_flood_five (y : Int) (rows : List StoredRow)
    (hlen : rows.length = 5)
    (htipo : ∀ r ∈ rows, r.tipo = "Flood")
    (hwin : ∀ r ∈ rows, y - 4 ≤ r.fecha.year) :
    resumen_probabilidades y rows = ⟨resumen_columns, [⟨"Flood", 5, 1⟩]⟩ ∧
    prob_display 5 = "63.2%" := by
  have hne : rows.isEmpty = false := by
    cases rows with
    | nil => simp at hlen
    | cons a as => rfl
  have hrec : recentes y rows = rows :=
    List.filter_eq_self.mpr fun r hr => by simpa using hwin r hr
  have hmap : rows.map (·.tipo) = List.replicate 5 "Flood" := by
    rw [List.eq_replicate_iff]
    refine ⟨by simpa using hlen, ?_⟩
    intro b hb
    rcases List.mem_map.mp hb with ⟨r, hr, rfl⟩
    exact htipo r hr
  have hvc : value_counts (List.replicate 5 "Flood") = [("Flood", 5)] := by decide
  have hround : round2 (((5 : ℕ) : ℚ) / 5) = 1 := by
    have h100 : (((5 : ℕ) : ℚ) / 5) * 100 = ((100 : ℤ) : ℚ) := by norm_num
    unfold round2
    rw [h100, round_intCast]
    norm_num
  have hrows : resumen_rows y rows = [⟨"Flood", 5, 1⟩] := by
    unfold resumen_rows
    rw [hrec, hmap, hvc]
    simp only [List.map_cons, List.map_nil, hround]
  constructor
  · unfold resumen_probabilidades
    rw [hne, hrows]
    rfl
  · exact prob_display_five

/-- Witness for C2 at five concrete flood records in the window. -/
theorem C2_flood_five_witness :
    resumen_probabilidades 2026
        [⟨1, ⟨2022, 1, 1⟩, "Flood", "", none, none, none, 2, none, none, none⟩,
         ⟨2, ⟨2023, 2, 1⟩, "Flood", "", none, none, none, 3, none, none, none⟩,
         ⟨3, ⟨2024, 3, 1⟩, "Flood", "", none, none, none, 1, none, none, none⟩,
         ⟨4, ⟨2025, 4, 1⟩, "Flood", "", none, none, none, 5, none, none, none⟩,
         ⟨5, ⟨2026, 5, 1⟩, "Flood", "", none, none, none, 4, none, none, none⟩]
      = ⟨resumen_columns, [⟨"Flood", 5, 1⟩]⟩ ∧
    prob_display 5 = "63.2%" :=
  C2_flood_five 2026
    [⟨1, ⟨2022, 1, 1⟩, "Flood", "", none, none, none, 2, none, none, none⟩,
     ⟨2, ⟨2023, 2, 1⟩, "Flood", "", none, none, none, 3, none, none, none⟩,
     ⟨3, ⟨2024, 3, 1⟩, "Flood", "", none, none, none, 1, none, none, none⟩,
     ⟨4, ⟨2025, 4, 1⟩, "Flood", "", none, none, none, 5, none, none, none⟩,
     ⟨5, ⟨2026, 5, 1⟩, "Flood", "", none, none, none, 4, none, none, none⟩]
    (by decide) (by decide) (by decide)

/-- Claim C3: the estimator's window keeps a record exactly when its year is
at least `current_year - 4`; a record dated six years back is not in the
window and adding it changes no category's count row. -/
theorem C3_window (y : Int) (rows : List StoredRow) (r : StoredRow)
    (h6 : r.fecha.year = y - 6) :
    (∀ s ∈ rows, (s ∈ recentes y rows ↔ y - 4 ≤ s.fecha.year)) ∧
    r ∉ recentes y (rows ++ [r]) ∧
    (resumen_probabilidades y (rows ++ [r])).rows = (resumen_probabilidades y rows).rows := by
  have hsingle : List.filter (fun s => decide (y - 4 ≤ s.fecha.year)) [r] = [] := by
    have hc : (decide (y - 4 ≤ r.fecha.year)) = false := by
      rw [decide_eq_false_iff_not]
      omega
    simp only [List.filter_cons, List.filter_nil, hc]
    rfl
  refine ⟨?_, ?_, ?_⟩
  · intro s hs
    simp [recentes, List.mem_filter, hs]
  · intro hm
    unfold recentes at hm
    rw [List.mem_filter] at hm
    have h2 := hm.2
    rw [h6] at h2
    simp only [decide_eq_true_eq] at h2
    omega
  · rw [resumen_probabilidades_rows, resumen_probabilidades_rows]
    unfold resumen_rows recentes
    rw [List.filter_append, hsingle, List.append_nil]

/-- Witness for C3: a 2024 record stays in the 2026 window, a 2020 record is
dropped and changes nothing. -/
theorem C3_window_witness :
    (∀ s ∈ [(⟨1, ⟨2024, 1, 1⟩, "Sismo", "", none, none, none, 2, none, none, none⟩ : StoredRow)],
       (s ∈ recentes 2026 [⟨1, ⟨2024, 1, 1⟩, "Sismo", "", none, none, none, 2, none, none, none⟩]
         ↔ (2026 : Int) - 4 ≤ s.fecha.year)) ∧
    (⟨2, ⟨2020, 1, 1⟩, "Sismo", "", none, none, none, 2, none, none, none⟩ : StoredRow)
      ∉ recentes 2026
          ([⟨1, ⟨2024, 1, 1⟩, "Sismo", "", none, none, none, 2, none, none, none⟩] ++
           [⟨2, ⟨2020, 1, 1⟩, "Sismo", "", none, none, none, 2, none, none, none⟩]) ∧
    (resumen_probabilidades 2026
        ([⟨1, ⟨2024, 1, 1⟩, "Sismo", "", none, none, none, 2, none, none, none⟩] ++
         [⟨2, ⟨2020, 1, 1⟩, "Sismo", "", none, none, none, 2, none, none, none⟩])).rows
      = (resumen_probabilidades 2026
          [⟨1, ⟨2024, 1, 1⟩, "Sismo", "", none, none, none, 2, none, none, none⟩]).rows :=
  C3_window 2026 [⟨1, ⟨2024, 1, 1⟩, "Sismo", "", none, none, none, 2, none, none, none⟩]
    ⟨2, ⟨2020, 1, 1⟩, "Sismo", "", none, none, none, 2, none, none, none⟩ (by decide)

/-- Every count in `value_counts` is positive: counted categories occur. -/
theorem value_counts_pos (l : List String) (p : String × Nat)
    (hp : p ∈ value_counts l) : 1 ≤ p.2 := by
  unfold value_counts at hp
  rw [mem_sort_desc] at hp
  rcases List.mem_map.mp hp with ⟨t, ht, rfl⟩
  exact List.count_pos_iff.mpr (List.mem_dedup.mp ht)

/-- Claim C10: every row the estimator produces has count at least 1, and the
Poisson probability `1 - exp(-n/5)` for that count is strictly between 0 and 1
and strictly increasing in the count. -/
theorem C10_probability_bounds (y : Int) (rows : List StoredRow) (row : ResumenRow)
    (hmem : row ∈ (resumen_probabilidades y rows).rows) :
    1 ≤ row.eventos ∧
    0 < probabilidad_poisson ((row.eventos : ℝ) / 5) ∧
    probabilidad_poisson ((row.eventos : ℝ) / 5) < 1 ∧
    ∀ m : ℕ, row.eventos < m →
      probabilidad_poisson ((row.eventos : ℝ) / 5) < probabilidad_poisson ((m : ℝ) / 5) := by
  rw [resumen_probabilidades_rows] at hmem
  unfold resumen_rows at hmem
  rcases List.mem_map.mp hmem with ⟨p, hp, rfl⟩
  have hn : 1 ≤ p.2 := value_counts_pos _ p hp
  dsimp only
  refine ⟨hn, ?_, ?_, ?_⟩
  · unfold probabilidad_poisson
    have h1 : (1 : ℝ) ≤ (p.2 : ℝ) := by exact_mod_cast hn
    have h2 : Real.exp (-((p.2 : ℝ) / 5)) < 1 := by
      calc Real.exp (-((p.2 : ℝ) / 5)) < Real.exp 0 := Real.exp_lt_exp.mpr (by linarith)
        _ = 1 := Real.exp_zero
    linarith
  · unfold probabilidad_poisson
    have := Real.exp_pos (-((p.2 : ℝ) / 5))
    linarith
  · intro m hm
    unfold probabilidad_poisson
    have hc : ((p.2 : ℕ) : ℝ) < (m : ℝ) := by exact_mod_cast hm
    have h2 : Real.exp (-((m : ℝ) / 5)) < Real.exp (-((p.2 : ℝ) / 5)) :=
      Real.exp_lt_exp.mpr (by linarith)
    linarith

/-- Witness for C10 at a one-record store: the single row has count 1 and its
probability lies strictly between 0 and 1 and increases with the count. -/
theorem C10_probability_bounds_witness :
    1 ≤ (⟨"Sismo", 1, round2 (((1 : ℕ) : ℚ) / 5)⟩ : ResumenRow).eventos ∧
    0 < probabilidad_poisson
        (((⟨"Sismo", 1, round2 (((1 : ℕ) : ℚ) / 5)⟩ : ResumenRow).eventos : ℝ) / 5) ∧
    probabilidad_poisson
        (((⟨"Sismo", 1, round2 (((1 : ℕ) : ℚ) / 5)⟩ : ResumenRow).eventos : ℝ) / 5) < 1 ∧
    ∀ m : ℕ, (⟨"Sismo", 1, round2 (((1 : ℕ) : ℚ) / 5)⟩ : ResumenRow).eventos < m →
      probabilidad_poisson
          (((⟨"Sismo", 1, round2 (((1 : ℕ) : ℚ) / 5)⟩ : ResumenRow).eventos : ℝ) / 5)
        < probabilidad_poisson ((m : ℝ) / 5) :=
  C10_probability_bounds 2026
    [⟨1, ⟨2026, 1, 1⟩, "Sismo", "", none, none, none, 3, none, none, none⟩]
    ⟨"Sismo", 1, round2 (((1 : ℕ) : ℚ) / 5)⟩
    (List.mem_singleton.mpr rfl)

/-- Fifty flood records inside the 5-year window of 2026. -/
def c10_fifty : List StoredRow :=
  (List.range 50).map fun i =>
    ⟨i + 1, ⟨2024, 1, 1⟩, "Inundación", "", none, none, none, 3, none, none, none⟩

/-- Counterexample to C10 as stated: the estimator produces a row with count
50 for this input, and the rendered percentage for count 50 is "100.0%" — the
display does reach 100% (the rounding of `99.995...` to one decimal), even
though the underlying probability stays below 1. -/
theorem C10_display_reaches_100 :
    (⟨"Inundación", 50, round2 (((50 : ℕ) : ℚ) / 5)⟩ : ResumenRow)
      ∈ (resumen_probabilidades 2026 c10_fifty).rows ∧
    prob_display 50 = "100.0%" :=
  ⟨List.mem_singleton.mpr rfl, prob_display_fifty⟩

/-- `filtrado` (main.py line 143): keep the rows whose category is among the
selected categories and whose year is among the selected years. -/
def filtrado (rows : List StoredRow) (tipo_sel : List String) (anio_sel : List Int) :
    List StoredRow :=
  rows.filter fun r => decide (r.tipo ∈ tipo_sel) && decide (r.fecha.year ∈ anio_sel)

/-- Claim C8: the filter keeps exactly the records whose category is selected
and whose year is selected (AND across dimensions, OR inside each), the
surviving records are the original ones unchanged (a sublist), and a category
selection excluding every present category yields the empty list. -/
theorem C8_filter (rows : List StoredRow) (tipo_sel : List String) (anio_sel : List Int) :
    (∀ r, r ∈ filtrado rows tipo_sel anio_sel ↔
      (r ∈ rows ∧ r.tipo ∈ tipo_sel ∧ r.fecha.year ∈ anio_sel)) ∧
    (filtrado rows tipo_sel anio_sel).Sublist rows ∧
    ((∀ r ∈ rows, r.tipo ∉ tipo_sel) → filtrado rows tipo_sel anio_sel = []) := by
  refine ⟨?_, ?_, ?_⟩
  · intro r
    simp [filtrado, List.mem_filter, and_assoc]
  · exact List.filter_sublist _
  · intro h
    refine List.eq_nil_iff_forall_not_mem.mpr fun r hr => ?_
    unfold filtrado at hr
    rcases List.mem_filter.mp hr with ⟨hmem, hcond⟩
    simp only [Bool.and_eq_true, decide_eq_true_eq] at hcond
    exact h r hmem hcond.1

/-- Witness for C8: selecting a category absent from the store yields no rows. -/
theorem C8_filter_witness :
    filtrado [⟨1, ⟨2024, 1, 1⟩, "Sismo", "", none, none, none, 2, none, none, none⟩]
      ["Inundación"] [2024] = [] :=
  (C8_filter [⟨1, ⟨2024, 1, 1⟩, "Sismo", "", none, none, none, 2, none, none, none⟩]
    ["Inundación"] [2024]).2.2 (by decide)

/-- Python `str(x)` as the popup f-string renders it: NULL prints as "None",
without raising (main.py line 191). -/
def pyStr : Option String → String
  | none => "None"
  | some s => s

/-- `row["impacto"][:100]` (main.py line 193): slicing a NULL value raises a
TypeError; slicing a string truncates it to 100 characters. -/
def slice100 : Option String → Except String String
  | none => Except.error "TypeError: NoneType is not subscriptable"
  | some s => Except.ok (s.take 100)

/-- One folium CircleMarker (main.py lines 195–202) together with its popup
fields (lines 188–194). -/
structure Marker where
  lat : ℚ
  lon : ℚ
  radius : Int
  color : String
  popup_tipo : String
  popup_fecha : Fecha
  popup_lugar : String
  popup_gravedad : Int
  popup_impacto : String
deriving DecidableEq

/-- One iteration of the map loop (main.py lines 186–202): a marker when both
coordinates are present (radius `6 + gravedad`, red when `gravedad >= 4`,
orange otherwise), `none` when either coordinate is NULL; building the popup
slices the impact text first and therefore raises on a NULL impact. -/
def render_marker (r : StoredRow) : Except String (Option Marker) :=
  match r.lat, r.lon with
  | some la, some lo =>
    match slice100 r.impacto with
    | Except.error e => Except.error e
    | Except.ok imp =>
        Except.ok (some ⟨la, lo, 6 + r.gravedad,
          if 4 ≤ r.gravedad then "red" else "orange",
          r.tipo, r.fecha, pyStr r.lugar, r.gravedad, imp⟩)
  | _, _ => Except.ok none

/-- The map loop over all loaded rows, aborting at the first raised error. -/
def render_map : List StoredRow → Except String (List Marker)
  | [] => Except.ok []
  | r :: rs =>
    match render_marker r with
    | Except.error e => Except.error e
    | Except.ok o =>
      match render_map rs with
      | Except.error e => Except.error e
      | Except.ok ms => Except.ok (o.toList ++ ms)

/-- A record whose impact is present, or which misses a coordinate, renders
without an error. -/
theorem render_marker_ok (r : StoredRow)
    (h : r.impacto ≠ none ∨ r.lat = none ∨ r.lon = none) :
    ∃ o, render_marker r = Except.ok o := by
  obtain ⟨id, fecha, tipo, subtipo, lugar, lat, lon, gravedad, impacto, fuente, notas⟩ := r
  cases lat with
  | none =>
    cases lon with
    | none => exact ⟨none, rfl⟩
    | some lo => exact ⟨none, rfl⟩
  | some la =>
    cases lon with
    | none => exact ⟨none, rfl⟩
    | some lo =>
      cases impacto with
      | none => simp at h
      | some s => exact ⟨_, rfl⟩

/-- A rendered marker determines its row's coordinates and carries the
severity-derived radius and threshold colour. -/
theorem render_marker_some (r : StoredRow) (m : Marker)
    (h : render_marker r = Except.ok (some m)) :
    r.lat = some m.lat ∧ r.lon = some m.lon ∧ m.radius = 6 + r.gravedad ∧
    m.color = (if 4 ≤ r.gravedad then "red" else "orange") := by
  obtain ⟨id, fecha, tipo, subtipo, lugar, lat, lon, gravedad, impacto, fuente, notas⟩ := r
  cases lat with
  | none =>
    cases lon with
    | none => simp [render_marker] at h
    | some lo => simp [render_marker] at h
  | some la =>
    cases lon with
    | none => simp [render_marker] at h
    | some lo =>
      cases impacto with
      | none => simp [render_marker, slice100] at h
      | some s =>
        simp only [render_marker, slice100, Except.ok.injEq, Option.some.injEq] at h
        subst h
        exact ⟨rfl, rfl, rfl, rfl⟩

/-- A concrete record with both coordinates but a NULL impact: the map view
raises instead of completing. -/
def c5_row : StoredRow :=
  ⟨1, ⟨2024, 5, 1⟩, "Inundación", "", some "Centro", some (511 / 20), some (-103), 3,
   none, none, none⟩

/-- Counterexample to C5 as stated: a loaded record whose only missing optional
field is the impact, with both coordinates present, makes the map renderer
raise a TypeError rather than complete. -/
theorem C5_null_impact_error :
    c5_row.lat ≠ none ∧ c5_row.lon ≠ none ∧ c5_row.impacto = none ∧
    render_map [c5_row] = Except.error "TypeError: NoneType is not subscriptable" :=
  ⟨by decide, by decide, rfl, rfl⟩

/-- Claim C5 as amended: the map renderer tolerates NULL coordinates, place,
source and notes — every record either missing a coordinate or carrying a
non-NULL impact renders without an error (the report view consumes only the
category and date columns and is a total function of them). -/
theorem C5_optional_fields (rows : List StoredRow)
    (h : ∀ r ∈ rows, r.impacto ≠ none ∨ r.lat = none ∨ r.lon = none) :
    ∃ ms, render_map rows = Except.ok ms := by
  induction rows with
  | nil => exact ⟨[], rfl⟩
  | cons r rs ih =>
    obtain ⟨o, ho⟩ := render_marker_ok r (h r (List.mem_cons_self r rs))
    obtain ⟨ms, hms⟩ := ih fun s hs => h s (List.mem_cons_of_mem r hs)
    exact ⟨o.toList ++ ms, by simp [render_map, ho, hms]⟩

/-- Witness for amended C5: a record with NULL place/source/notes and one with
a NULL coordinate and NULL impact both render without error. -/
theorem C5_optional_fields_witness :
    ∃ ms, render_map
      [⟨1, ⟨2024, 1, 1⟩, "Inundación", "", none, some 25, some (-103), 4, some "daños",
        none, none⟩,
       ⟨2, ⟨2023, 1, 1⟩, "Apagón", "", some "Norte", some 25, none, 2, none, none, none⟩]
      = Except.ok ms :=
  C5_optional_fields
    [⟨1, ⟨2024, 1, 1⟩, "Inundación", "", none, some 25, some (-103), 4, some "daños",
      none, none⟩,
     ⟨2, ⟨2023, 1, 1⟩, "Apagón", "", some "Norte", some 25, none, 2, none, none, none⟩]
    (by decide)

/-- A severity-5 record with both coordinates present but NULL impact. -/
def c7_row : StoredRow :=
  ⟨3, ⟨2025, 2, 2⟩, "Sismo", "", none, some 25, some (-103), 5, none, none, none⟩

/-- Counterexample to C7 as stated: this record has both coordinates non-null,
yet no marker is created — the renderer raises on its NULL impact. -/
theorem C7_null_impact_no_marker :
    c7_row.lat ≠ none ∧ c7_row.lon ≠ none ∧
    render_map [c7_row] = Except.error "TypeError: NoneType is not subscriptable" :=
  ⟨by decide, by decide, rfl⟩

/-- Claim C7 as amended: a record missing a coordinate is skipped silently;
for records with a non-NULL impact a marker exists iff both coordinates are
present; a severity-5 marker has a strictly larger radius than a severity-1
marker; and the colour threshold separates severity ≥ 4 (red) from the rest
(orange). -/
theorem C7_markers :
    (∀ r : StoredRow, r.lat = none ∨ r.lon = none → render_marker r = Except.ok none) ∧
    (∀ r : StoredRow, r.impacto ≠ none →
      ((∃ m, render_marker r = Except.ok (some m)) ↔ (r.lat ≠ none ∧ r.lon ≠ none))) ∧
    (∀ (r₁ r₂ : StoredRow) (m₁ m₂ : Marker), r₁.gravedad = 5 → r₂.gravedad = 1 →
      render_marker r₁ = Except.ok (some m₁) → render_marker r₂ = Except.ok (some m₂) →
      m₂.radius < m₁.radius) ∧
    (∀ (r : StoredRow) (m : Marker), render_marker r = Except.ok (some m) →
      (4 ≤ r.gravedad → m.color = "red") ∧ (r.gravedad < 4 → m.color = "orange")) := by
  refine ⟨?_, ?_, ?_, ?_⟩
  · intro r h
    obtain ⟨id, fecha, tipo, subtipo, lugar, lat, lon, gravedad, impacto, fuente, notas⟩ := r
    rcases h with h | h
    · cases lon with
      | none =>
        cases lat with
        | none => rfl
        | some la => rfl
      | some lo =>
        cases lat with
        | none => rfl
        | some la => simp at h
    · cases lat with
      | none => cases lon with
        | none => rfl
        | some lo => rfl
      | some la =>
        cases lon with
        | none => rfl
        | some lo => simp at h
  · intro r him
    constructor
    · rintro ⟨m, hm⟩
      obtain ⟨h1, h2, -, -⟩ := render_marker_some r m hm
      exact ⟨by simp [h1], by simp [h2]⟩
    · rintro ⟨h1, h2⟩
      obtain ⟨id, fecha, tipo, subtipo, lugar, lat, lon, gravedad, impacto, fuente, notas⟩ := r
      cases lat with
      | none => simp at h1
      | some la =>
        cases lon with
        | none => simp at h2
        | some lo =>
          cases impacto with
          | none => simp at him
          | some s => exact ⟨_, rfl⟩
  · intro r₁ r₂ m₁ m₂ h5 h1 hm1 hm2
    obtain ⟨-, -, hr1, -⟩ := render_marker_some r₁ m₁ hm1
    obtain ⟨-, -, hr2, -⟩ := render_marker_some r₂ m₂ hm2
    rw [h5] at hr1
    rw [h1] at hr2
    omega
  · intro r m hm
    obtain ⟨-, -, -, hc⟩ := render_marker_some r m hm
    constructor
    · intro h4
      rw [hc, if_pos h4]
    · intro h4
      rw [hc, if_neg (by omega)]

/-- Concrete rows and markers witnessing amended C7. -/
def c7_g5 : StoredRow :=
  ⟨4, ⟨2024, 1, 1⟩, "Sismo", "", none, some 25, some (-103), 5, some "x", none, none⟩

def c7_g1 : StoredRow :=
  ⟨5, ⟨2024, 1, 1⟩, "Apagón", "", none, some 24, some (-102), 1, some "y", none, none⟩

def c7_nolon : StoredRow :=
  ⟨6, ⟨2024, 1, 1⟩, "Sismo", "", none, some 25, none, 5, some "z", none, none⟩

def c7_m5 : Marker := ⟨25, -103, 11, "red", "Sismo", ⟨2024, 1, 1⟩, "None", 5, "x"⟩

def c7_m1 : Marker := ⟨24, -102, 7, "orange", "Apagón", ⟨2024, 1, 1⟩, "None", 1, "y"⟩

/-- Witness for amended C7 at concrete severity-5 and severity-1 records. -/
theorem C7_markers_witness :
    render_marker c7_nolon = Except.ok none ∧
    ((∃ m, render_marker c7_g5 = Except.ok (some m)) ↔
      (c7_g5.lat ≠ none ∧ c7_g5.lon ≠ none)) ∧
    c7_m1.radius < c7_m5.radius ∧
    (4 ≤ c7_g5.gravedad → c7_m5.color = "red") ∧
    (c7_g5.gravedad < 4 → c7_m5.color = "orange") :=
  ⟨C7_markers.1 c7_nolon (Or.inr rfl),
   C7_markers.2.1 c7_g5 (by decide),
   C7_markers.2.2.1 c7_g5 c7_g1 c7_m5 c7_m1 rfl rfl rfl rfl,
   (C7_markers.2.2.2 c7_g5 c7_m5 rfl).1,
   (C7_markers.2.2.2 c7_g5 c7_m5 rfl).2⟩

/-- `st.slider("Nivel de gravedad", 1, 5, 3)` (main.py line 114): the widget
can only yield a value inside its bounds; modelled as a clamp. -/
def slider_clamp (lo hi v : Int) : Int := max lo (min v hi)

/-- Counterexample to C6 as stated: an insert carrying latitude 999 (outside
[-90, 90]) and severity 7 (outside [1, 5]) is not rejected — the row is
written to the store with exactly those values. -/
theorem C6_out_of_range_inserted :
    cargar_datos (agregar_suceso ⟨[], 1⟩ ⟨2026, 1, 15⟩ "Otro" "" none (some 999) (some 0) 7
        none none none)
      = [⟨1, ⟨2026, 1, 15⟩, "Otro", "", none, some 999, some 0, 7, none, none, none⟩] := rfl

/-- Claim C6 as amended: the entry form's widgets make a malformed date or an
out-of-range severity impossible to attempt (the date picker yields a valid
calendar date and the slider clamps to [1, 5]), but no validation exists for
coordinates or for direct calls: `agregar_suceso` writes whatever values it
is given, unconditionally. -/
theorem C6_no_validation :
    (∀ v : Int, 1 ≤ slider_clamp 1 5 v ∧ slider_clamp 1 5 v ≤ 5) ∧
    (∀ (s : Store) (fecha : Fecha) (tipo subtipo : String) (lugar : Option String)
       (lat lon : Option ℚ) (gravedad : Int) (impacto fuente notas : Option String),
       cargar_datos (agregar_suceso s fecha tipo subtipo lugar lat lon gravedad
           impacto fuente notas)
         = cargar_datos s ++
           [⟨s.nextId, fecha, tipo, subtipo, lugar, lat, lon, gravedad, impacto,
             fuente, notas⟩]) := by
  constructor
  · intro v
    unfold slider_clamp
    constructor
    · exact le_max_left 1 (min v 5)
    · exact max_le (by norm_num) (min_le_right v 5)
  · intro s fecha tipo subtipo lugar lat lon gravedad impacto fuente notas
    rfl

/-- Python `str.lower()` on ASCII text, as a structural map over the
characters. -/
def lower_ascii (s : String) : String :=
  String.mk (s.data.map fun c =>
    if 65 ≤ c.toNat ∧ c.toNat ≤ 90 then Char.ofNat (c.toNat + 32) else c)

/-- main.py line 101: `st.secrets.get("ALLOW_WRITE", "true").lower() == "true"`
— the write-permission flag, read from the secrets store, defaulting to
writes allowed when the secret is absent. -/
def allow_write (secret : Option String) : Bool :=
  lower_ascii (secret.getD "true") == "true"

/-- Leading-space indentation of main.py line 120, the header
`if allow_write:`. -/
def indent_if_allow_write : Nat := 8

/-- Leading-space indentation of main.py line 121, the gated
`submit = st.form_submit_button("Guardar suceso")` that line 120's `if` is
meant to govern. -/
def indent_gated_submit : Nat := 4

/-- Leading-space indentation of main.py line 102, the header
`if not allow_write:`. -/
def indent_if_not_allow_write : Nat := 0

/-- Leading-space indentation of main.py line 105, `with st.form(...)` — the
whole record-entry form sits inside the `if not allow_write:` suite. -/
def indent_form_block : Nat := 4

/-- A Python compound statement is well formed when its suite is indented
strictly deeper than its header line. -/
def python_suite_ok (header body : Nat) : Prop := header < body

/-- The `st.form_submit_button("Guardar suceso")` creations inside the entry
form (main.py lines 118 and 121), paired with whether each is guarded by
`allow_write`: line 118 creates an unconditional submit control. -/
def submit_buttons : List (Nat × Bool) := [(118, false), (121, true)]

/-- Claim C4, evaluated against the defective source: the flag itself does
default to writes-allowed when the secret is absent, but the write-gating
structure is broken — the gated submit assignment (line 121) is dedented out
of its `if allow_write:` header (line 120), so the file is not even a valid
Python suite there; the form block is nested under `if not allow_write:`; and
the form holds two submit controls, one of them unguarded. -/
theorem C4_write_gate_defect :
    allow_write none = true ∧
    ¬ python_suite_ok indent_if_allow_write indent_gated_submit ∧
    python_suite_ok indent_if_not_allow_write indent_form_block ∧
    submit_buttons.length ≠ 1 ∧
    (118, false) ∈ submit_buttons := by
  refine ⟨by decide, ?_, ?_, by decide, by decide⟩
  · unfold python_suite_ok indent_if_allow_write indent_gated_submit
    decide
  · unfold python_suite_ok indent_if_not_allow_write indent_form_block
    decide

end Sucesos
